import Mathlib

/-!
Verification development for the cafe-ordering-system backend.

The repository exposes one domain core behind two HTTP front ends (a Flask
app and a FastAPI app). This file gives a shallow embedding of the data
model (src/infrastructure/db/models), the route layers
(src/fastapi_app/api/routes, src/flask_app/blueprints) and the domain
services they call, and proves the stated properties about them.

The bodies of the domain services (the domain.services module) are not part
of the sources at hand; where a definition embeds such a service it is
modelled from the specification and says so in its doc comment. Machine
integers and SQL numerics are modelled as Int / Rat; dates and datetimes as
Int ordinals supplied by the ambient clock.
-/

namespace Cafe

/-- Error taxonomy of domain.core.errors: NotFoundError, ConflictError,
DomainValidationError (the unclassified internal kind is carried separately
by the request models below). -/
inductive DomainError where
  | notFound
  | conflict
  | validationError
deriving DecidableEq

/-- Roles of utils.enums.UserRole. -/
inductive Role where
  | client
  | staff
deriving DecidableEq

/-- The verified identity attached to a request by the auth dependency:
a subject id and an optional role claim (none when unauthenticated). -/
structure Credential where
  subject : Nat
  role : Option Role
deriving DecidableEq

/-- Dish row (src/infrastructure/db/models/users.py, class Dish): keyed by
the short code; price is an integer column. Counters and image reference
are not needed by any property below. -/
structure Dish where
  code : String
  name : String
  category_id : Nat
  price : Int
  is_popular : Bool
  is_recommended : Bool
deriving DecidableEq

/-- Coupon row (src/infrastructure/db/models/users.py, class Coupon). -/
structure Coupon where
  code : String
  discount_value : Int
  is_active : Bool
  expires_at : Option Int
  used_at : Option Int
  user_id : Option Nat
deriving DecidableEq

/-- Order row (src/infrastructure/db/models/users.py, class Order):
snapshots original cost, the applied loyalty and coupon percentages and
the final cost; completed_at / completed_by start null. -/
structure Order where
  id : Nat
  completed_at : Option Int
  completed_by : Option Nat
  user_id : Nat
  original_cost : ℚ
  loyalty_pct : Int
  coupon_pct : Int
  final_cost : ℚ
deriving DecidableEq

/-- AdminNotification row (src/infrastructure/db/models/admin.py). -/
structure AdminNotification where
  id : Nat
  title : String
  is_read : Bool
deriving DecidableEq

/-- SalesSummary aggregate row (src/infrastructure/db/models/admin.py,
class SalesSummary): one row per calendar date. -/
structure SalesRow where
  date : Int
  total_sales : ℚ
  orders : Nat
  returning_customers : Nat
deriving DecidableEq

/-- DishOrdersStats aggregate row (src/infrastructure/db/models/admin.py). -/
structure DishStatsRow where
  code : String
  orders : Nat
deriving DecidableEq

/-- One cart line of an order request: a dish code plus the ids of the
chosen extras (the many-to-many dish_extra_link of the model file). -/
structure CartLine where
  dish_code : String
  extra_ids : List Nat
deriving DecidableEq

/-- The store state: dish and extra catalogs as keyed lookups (dish code is
the primary identity, DishExtra is keyed by id and carries a numeric
price), and the mutable tables as row lists. The composite primary key of
dish_likes is the pair (user_id, dish_code). -/
structure Store where
  dishes : String → Option Dish
  extras : Nat → Option ℚ
  likes : List (Nat × String)
  coupons : List Coupon
  orders : List Order
  notifications : List AdminNotification
  sales_rows : List SalesRow
  dish_stats : List DishStatsRow

/-- Price of one cart line under the current catalog: the dish price plus
the prices of its extras; none when the dish code or an extra id does not
resolve. -/
def linePrice (s : Store) (line : CartLine) : Option ℚ :=
  match s.dishes line.dish_code with
  | none => none
  | some d =>
    line.extra_ids.foldl
      (fun acc eid => acc.bind (fun a => (s.extras eid).map (fun p => a + p)))
      (some (d.price : ℚ))

/-- Total of a cart under the current catalog; none when some line fails to
resolve. -/
def resolveCart (s : Store) (cart : List CartLine) : Option ℚ :=
  cart.foldl (fun acc line => acc.bind (fun a => (linePrice s line).map (a + ·))) (some 0)

/-- Reduce an amount by a percentage of itself (the discount policy applies
each percentage to the then-current remainder). -/
def applyPct (x : ℚ) (p : Int) : ℚ :=
  x - x * p / 100

/-- Round to the configured currency precision of two decimal places (the
Numeric(10, 2) columns of the Order model). -/
def round2 (x : ℚ) : ℚ :=
  (round (x * 100) : ℚ) / 100

/-- Modelled from the spec: services.create_order (spec section 4.3), whose
body is not among the sources. Resolves each cart line against the current
catalog (NotFound when a referenced dish code does not resolve), sums the
snapshot prices into original_cost, applies the loyalty percentage first
and then the coupon percentage to the remainder, rounds to the currency
precision, and persists the Order row with both percentages snapshotted. -/
def create_order (s : Store) (cart : List CartLine) (userId : Nat)
    (loyaltyPct couponPct : Int) : Except DomainError (Order × Store) :=
  match resolveCart s cart with
  | none => .error .notFound
  | some orig =>
    let o : Order :=
      { id := s.orders.length
        completed_at := none
        completed_by := none
        user_id := userId
        original_cost := orig
        loyalty_pct := loyaltyPct
        coupon_pct := couponPct
        final_cost := round2 (applyPct (applyPct orig loyaltyPct) couponPct) }
    .ok (o, { s with orders := s.orders ++ [o] })

/-- Mark an order row completed by the given staff member at the given
time (the completed_at / completed_by columns of the Order model). -/
def completeFields (o : Order) (staffId : Nat) (now : Int) : Order :=
  { o with completed_at := some now, completed_by := some staffId }

/-- Modelled from the spec: services.complete_order (spec section 4.3),
whose body is not among the sources. Fails with NotFound when no order with
that id exists, with Conflict when the order is already completed, and
otherwise sets completed_at and completed_by. -/
def complete_order (s : Store) (orderId staffId : Nat) (now : Int) :
    Except DomainError Store :=
  match s.orders.find? (fun o => o.id == orderId) with
  | none => .error .notFound
  | some o =>
    if o.completed_at.isSome then .error .conflict
    else .ok { s with
      orders := s.orders.map
        (fun x => if x.id == orderId then completeFields x staffId now else x) }

/-- Whether a coupon is expired relative to the current date (the optional
expires_at Date column of the Coupon model). -/
def couponExpired (c : Coupon) (today : Int) : Bool :=
  match c.expires_at with
  | some e => decide (e < today)
  | none => false

/-- Consume a coupon: set used_at and bind it to the redeeming user (the
used_at / user_id columns of the Coupon model). -/
def consumeCoupon (c : Coupon) (userId : Nat) (now : Int) : Coupon :=
  { c with used_at := some now, user_id := some userId }

/-- Modelled from the spec: services.check_coupon (spec section 4.2), whose
body is not among the sources. Fails with NotFound when the code does not
exist; with Conflict when the coupon is already used, deactivated or
expired; on success returns the discount percentage and, in the same
atomic state transition, marks the coupon consumed and bound to the
requesting user. -/
def check_coupon (s : Store) (code : String) (userId : Nat) (today now : Int) :
    Except DomainError (Int × Store) :=
  match s.coupons.find? (fun c => c.code == code) with
  | none => .error .notFound
  | some c =>
    if c.used_at.isSome then .error .conflict
    else if !c.is_active then .error .conflict
    else if couponExpired c today then .error .conflict
    else .ok (c.discount_value,
      { s with coupons :=
          s.coupons.map (fun x => if x.code == code then consumeCoupon x userId now else x) })

/-- Modelled from the spec: services.add_dish_like, whose body is not among
the sources. Fails with NotFound when the dish code does not exist; the
duplicate check embeds the composite primary key (user_id, dish_code) of
the dish_likes table, whose violation the route layers surface as
Conflict. -/
def add_dish_like (s : Store) (userId : Nat) (code : String) :
    Except DomainError Store :=
  match s.dishes code with
  | none => .error .notFound
  | some _ =>
    if (userId, code) ∈ s.likes then .error .conflict
    else .ok { s with likes := (userId, code) :: s.likes }

/-- Modelled from the spec: services.get_notifications
(list_notifications(unread_only), spec section 4.5), whose body is not
among the sources. -/
def get_notifications (only_unread : Bool) (s : Store) : List AdminNotification :=
  if only_unread then s.notifications.filter (fun n => !n.is_read)
  else s.notifications

/-- Modelled from the spec: services.get_orders (list_orders(filter), spec
section 4.3), whose body is not among the sources: read-only, filtered by
completion state. -/
def get_orders (orders : List Order) (only_uncompleted : Bool) : List Order :=
  if only_uncompleted then orders.filter (fun o => o.completed_at == none)
  else orders

/-- Modelled from the spec: services.count (count_uncompleted, spec section
4.3), whose body is not among the sources: the count of uncompleted
orders. -/
def count_uncompleted (orders : List Order) : Nat :=
  (orders.filter (fun o => o.completed_at == none)).length

/-- The list of calendar dates from d1 to d2 inclusive. -/
def salesRange (d1 d2 : Int) : List Int :=
  (List.range ((d2 - d1).toNat + 1)).map (fun i : Nat => d1 + (i : Int))

/-- Response shape of src/domain/schemas/statistics.py,
SalesSummarySchema: five parallel lists, one position per date. -/
structure SalesSummarySchema where
  dates : List String
  total_sales : List ℚ
  avg_check_sizes : List ℚ
  orders : List Nat
  returning_customers : List Nat
deriving DecidableEq

/-- Response shape of src/domain/schemas/statistics.py,
DishOrderStatsSchema. -/
structure DishOrderStatsSchema where
  dishes : List String
  orders : List Nat
deriving DecidableEq

/-- Response shape of src/domain/schemas/statistics.py,
StatisticsResponseSchema. -/
structure StatisticsResponseSchema where
  sales_summary : SalesSummarySchema
  dish_order_stats : DishOrderStatsSchema
deriving DecidableEq

/-- Modelled from the spec: services.get_sales_summary (spec section 4.6),
whose body is not among the sources. Returns one entry per calendar date in
the inclusive range, reading the derived SalesSummary aggregate rows and
zero-filling dates with no row; the average check size is total sales over
order count. -/
def get_sales_summary (rows : List SalesRow) (d1 d2 : Int) : SalesSummarySchema :=
  let ds := salesRange d1 d2
  let rowAt := fun d => rows.find? (fun r => r.date == d)
  { dates := ds.map (fun d => toString d)
    total_sales := ds.map (fun d => ((rowAt d).map SalesRow.total_sales).getD 0)
    avg_check_sizes := ds.map (fun d =>
      match rowAt d with
      | some r => if r.orders == 0 then 0 else r.total_sales / (r.orders : ℚ)
      | none => 0)
    orders := ds.map (fun d => ((rowAt d).map SalesRow.orders).getD 0)
    returning_customers :=
      ds.map (fun d => ((rowAt d).map SalesRow.returning_customers).getD 0) }

/-- Modelled from the spec: services.get_dish_order_stats (spec section
4.6), whose body is not among the sources: per-dish cumulative order
counts from the DishOrdersStats aggregate rows. -/
def get_dish_order_stats (rows : List DishStatsRow) : DishOrderStatsSchema :=
  { dishes := rows.map DishStatsRow.code
    orders := rows.map DishStatsRow.orders }

/-! Request lifecycle. A handler is modelled as a function from the store
to the session-visible state it produced (its writes, committed or not)
together with the failure it reported, if any. -/

/-- Outcome of running a route handler body: the session-visible state
after its writes, and the error it reported (none on success). -/
abbrev HandlerRun := Store → Store × Option DomainError

/-- The Flask per-request session of src/flask_app/init: committed is
the durable state at request start, pending the session-visible state with
uncommitted writes, rollback_needed the ambient flag the handlers set on
every caught domain failure. -/
structure FlaskSession where
  committed : Store
  pending : Store
  rollback_needed : Bool

/-- Embeds remove_session of src/flask_app/init (teardown_request):
rolls back when the request raised or a handler flagged rollback_needed,
otherwise commits; a commit that itself fails is rolled back. The returned
store is the durable state after teardown. -/
def remove_session (db : FlaskSession) (exc : Bool) (commitFails : Bool) : Store :=
  if exc || db.rollback_needed then db.committed
  else if commitFails then db.committed
  else db.pending

/-- A Flask mutating request end to end: create_session installs a fresh
session over the durable state, the handler runs and flags
rollback_needed on every reported failure (as every mutating route in
src/flask_app/blueprints does), and remove_session tears down. Returns the
durable state after teardown and the reported error. -/
def flask_mutation_request (s : Store) (handler : HandlerRun)
    (exc commitFails : Bool) : Store × Option DomainError :=
  let run := handler s
  let db : FlaskSession :=
    { committed := s, pending := run.1, rollback_needed := run.2.isSome }
  (remove_session db exc commitFails, run.2)

/-- A FastAPI mutating request end to end, following the uniform pattern of
src/fastapi_app/api/routes: the handler body runs, then db.commit() on
success, while every failure path calls db.rollback() before re-raising, so
the durable state reverts to the request-start state. -/
def fastapi_mutation_request (s : Store) (handler : HandlerRun) :
    Store × Option DomainError :=
  match handler s with
  | (s2, none) => (s2, none)
  | (_, some e) => (s, some e)

/-! Route layers. Query parameters arrive as an optional parsed value; each
front end substitutes its own default when the parameter is absent. -/

/-- Default of the only_unread query parameter in the FastAPI notifications
route (src/fastapi_app/api/routes/admin.py: Query(False)). -/
def fastapi_only_unread_default : Bool := false

/-- Lowercase a string character by character (the str.lower call of the
Flask routes, over the ASCII flag values they compare). -/
def lowercase (s : String) : String :=
  String.mk (s.data.map Char.toLower)

/-- Default of the only_unread query parameter in the Flask notifications
route (src/flask_app/blueprints/admin/routes.py:
request.args.get with default "true", lowercased and compared to "true"). -/
def flask_only_unread_default : Bool := lowercase "true" == "true"

/-- Default of the only_uncompleted query parameter in the FastAPI orders
route (src/fastapi_app/api/routes/admin.py: Query(True)). -/
def fastapi_only_uncompleted_default : Bool := true

/-- Default of the only_uncompleted query parameter in the Flask orders
route (src/flask_app/blueprints/admin/routes.py: default "true",
lowercased and compared to "true"). -/
def flask_only_uncompleted_default : Bool := lowercase "true" == "true"

/-- The FastAPI notifications route (src/fastapi_app/api/routes/admin.py,
get_notifications_endpoint): passes only_unread, defaulted per Query(False),
to services.get_notifications. -/
def fastapi_get_notifications_route (s : Store) (only_unread : Option Bool) :
    List AdminNotification :=
  get_notifications (only_unread.getD fastapi_only_unread_default) s

/-- The Flask notifications route (src/flask_app/blueprints/admin/routes.py,
get_notifications_endpoint): passes only_unread, defaulted to true, to
services.get_notifications. -/
def flask_get_notifications_route (s : Store) (only_unread : Option Bool) :
    List AdminNotification :=
  get_notifications (only_unread.getD flask_only_unread_default) s

/-- Embeds has_required_role of the auth dependencies (declared in both
route layers; the dependency module itself is outside the sources, its
check modelled from the spec: role authorization rejects a request whose
credential does not carry the required role). -/
def has_required_role (required : Role) (cred : Credential) : Bool :=
  cred.role == some required

/-- Failure at the route layer: the role gate rejects, or the domain call
fails. -/
inductive RouteFailure where
  | forbidden
  | domainFailure (e : DomainError)
deriving DecidableEq

/-- The FastAPI orders-count route (src/fastapi_app/api/routes/admin.py,
get_orders_count_endpoint): declares no role dependency, so the result
ignores the credential entirely. -/
def fastapi_get_orders_count_endpoint (s : Store) (_cred : Credential) : Nat :=
  count_uncompleted s.orders

/-- The Flask orders-count route (src/flask_app/blueprints/admin/routes.py,
get_orders_count_endpoint): no role_required decorator, so the result
ignores the credential entirely. -/
def flask_get_orders_count_endpoint (s : Store) (_cred : Credential) : Nat :=
  count_uncompleted s.orders

/-- The FastAPI orders list route (src/fastapi_app/api/routes/admin.py,
get_orders_endpoint): staff role required, only_uncompleted defaulted per
Query(True). -/
def fastapi_get_orders_endpoint (s : Store) (cred : Credential)
    (only_uncompleted : Option Bool) : Except RouteFailure (List Order) :=
  if has_required_role .staff cred then
    .ok (get_orders s.orders (only_uncompleted.getD fastapi_only_uncompleted_default))
  else .error .forbidden

/-- The Flask orders list route (src/flask_app/blueprints/admin/routes.py,
get_orders_endpoint): staff role required, only_uncompleted defaulted to
true. -/
def flask_get_orders_endpoint (s : Store) (cred : Credential)
    (only_uncompleted : Option Bool) : Except RouteFailure (List Order) :=
  if has_required_role .staff cred then
    .ok (get_orders s.orders (only_uncompleted.getD flask_only_uncompleted_default))
  else .error .forbidden

/-- The FastAPI order completion route (src/fastapi_app/api/routes/admin.py,
complete_order_endpoint): staff role required, then services.complete_order
with the credential subject as the completing staff id. -/
def fastapi_complete_order_endpoint (s : Store) (cred : Credential)
    (orderId : Nat) (now : Int) : Except RouteFailure Store :=
  if has_required_role .staff cred then
    match complete_order s orderId cred.subject now with
    | .ok s2 => .ok s2
    | .error e => .error (.domainFailure e)
  else .error .forbidden

/-- The Flask order completion route (src/flask_app/blueprints/admin/routes.py,
complete_order_endpoint): staff role required, then services.complete_order. -/
def flask_complete_order_endpoint (s : Store) (cred : Credential)
    (orderId : Nat) (now : Int) : Except RouteFailure Store :=
  if has_required_role .staff cred then
    match complete_order s orderId cred.subject now with
    | .ok s2 => .ok s2
    | .error e => .error (.domainFailure e)
  else .error .forbidden

/-- Status mapping of the FastAPI order completion route
(src/fastapi_app/api/routes/admin.py: NotFoundError to 404, ConflictError
to 409, anything else re-raised as an internal 500). -/
def fastapi_complete_order_error_status (e : DomainError) : Nat :=
  match e with
  | .notFound => 404
  | .conflict => 409
  | .validationError => 500

/-- Status mapping of the Flask order completion route
(src/flask_app/blueprints/admin/routes.py: NotFoundError to 404,
ConflictError to 409, anything else propagates as an internal 500). -/
def flask_complete_order_error_status (e : DomainError) : Nat :=
  match e with
  | .notFound => 404
  | .conflict => 409
  | .validationError => 500

/-- Status mapping of the FastAPI coupon route
(src/fastapi_app/api/routes/users.py, check_coupon_endpoint: 404, 409,
400). -/
def fastapi_check_coupon_error_status (e : DomainError) : Nat :=
  match e with
  | .notFound => 404
  | .conflict => 409
  | .validationError => 400

/-- Status mapping of the Flask coupon route
(src/flask_app/blueprints/users/routes.py, check_coupon_endpoint: 404,
409, 400). -/
def flask_check_coupon_error_status (e : DomainError) : Nat :=
  match e with
  | .notFound => 404
  | .conflict => 409
  | .validationError => 400

/-- The FastAPI statistics route (src/fastapi_app/api/routes/admin.py,
statistics_endpoint): rejects with a 400 validation failure exactly when
start_date is after end_date, otherwise assembles the statistics
response. -/
def fastapi_statistics_endpoint (s : Store) (startDate endDate : Int) :
    Except DomainError StatisticsResponseSchema :=
  if startDate > endDate then .error .validationError
  else .ok
    { sales_summary := get_sales_summary s.sales_rows startDate endDate
      dish_order_stats := get_dish_order_stats s.dish_stats }

/-- The Flask statistics route (src/flask_app/blueprints/admin/routes.py,
statistics_endpoint): same comparison, same assembly. -/
def flask_statistics_endpoint (s : Store) (startDate endDate : Int) :
    Except DomainError StatisticsResponseSchema :=
  if startDate > endDate then .error .validationError
  else .ok
    { sales_summary := get_sales_summary s.sales_rows startDate endDate
      dish_order_stats := get_dish_order_stats s.dish_stats }

/-! Redis degradation (src/infrastructure/redis.py, src/fastapi_app/core/
limiter.py, src/flask_app/extensions.py, src/fastapi_app/main.py). -/

/-- Whether the external Redis responds: unreachable stands for a failed
connection or a ping that raises. -/
inductive RedisHealth where
  | reachable
  | unreachable
deriving DecidableEq

/-- A connected Redis client handle. -/
structure RedisClient where
  url : String
deriving DecidableEq

/-- Embeds get_sync_redis_client of src/infrastructure/redis.py: builds a
client and pings it; every RedisError and every unexpected exception is
caught and yields None. -/
def get_sync_redis_client (h : RedisHealth) (url : String) : Option RedisClient :=
  match h with
  | .reachable => some { url := url }
  | .unreachable => none

/-- Storage backing for the rate limiter and the response cache. -/
inductive StorageBackend where
  | redisBacked
  | inMemory
deriving DecidableEq

/-- A constructed rate limiter. -/
structure Limiter where
  backend : StorageBackend
deriving DecidableEq

/-- Embeds create_limiter of src/fastapi_app/core/limiter.py: Redis-backed
storage when get_sync_redis_client yields a client, in-memory storage
otherwise. -/
def create_limiter (h : RedisHealth) (url : String) : Limiter :=
  match get_sync_redis_client h url with
  | some _ => { backend := .redisBacked }
  | none => { backend := .inMemory }

/-- Embeds the module-level limiter wiring of src/flask_app/extensions.py:
Redis storage when the client is available, in-memory otherwise. -/
def flask_limiter (h : RedisHealth) (url : String) : Limiter :=
  match get_sync_redis_client h url with
  | some _ => { backend := .redisBacked }
  | none => { backend := .inMemory }

/-- Embeds the lifespan cache wiring of src/fastapi_app/main.py: the
FastAPI cache is initialised with the Redis backend when the ping
succeeds, and any exception falls back to the in-memory backend. -/
def lifespan_cache_backend (h : RedisHealth) : StorageBackend :=
  match h with
  | .reachable => .redisBacked
  | .unreachable => .inMemory

/-- Dispatch of one request under a given limiter and cache backend: the
handlers of both route layers consult only the database session, so the
outcome is the handler result whatever storage backs the limiter and
cache. -/
def handle_request (_lim : Limiter) (_cacheBackend : StorageBackend)
    (handler : HandlerRun) (s : Store) : Store × Option DomainError :=
  handler s

/-! Concrete fixtures used by the witnesses below. -/

/-- A concrete dish. -/
def demoDish : Dish :=
  { code := "d1", name := "Pizza", category_id := 1, price := 200
    is_popular := false, is_recommended := false }

/-- A concrete unused, active coupon worth ten percent. -/
def demoCoupon : Coupon :=
  { code := "SAVE10", discount_value := 10, is_active := true
    expires_at := some 100, used_at := none, user_id := none }

/-- A concrete uncompleted order. -/
def demoOrder : Order :=
  { id := 1, completed_at := none, completed_by := none, user_id := 7
    original_cost := 200, loyalty_pct := 0, coupon_pct := 10, final_cost := 180 }

/-- A concrete already-read notification. -/
def demoNotification : AdminNotification :=
  { id := 5, title := "shift", is_read := true }

/-- A concrete sales aggregate row. -/
def demoSalesRow : SalesRow :=
  { date := 1, total_sales := 100, orders := 2, returning_customers := 1 }

/-- A concrete store holding the fixtures above. -/
def demoStore : Store :=
  { dishes := fun c => if c = "d1" then some demoDish else none
    extras := fun _ => none
    likes := []
    coupons := [demoCoupon]
    orders := [demoOrder]
    notifications := [demoNotification]
    sales_rows := [demoSalesRow]
    dish_stats := [] }

/-- A concrete handler that writes a like row and then reports a
Conflict. -/
def demoFailingHandler : HandlerRun :=
  fun st => ({ st with likes := (1, "d1") :: st.likes }, some .conflict)

/-- Finding in a mapped list commutes with the map when the map preserves
the predicate; used for the keyed row updates below. -/
theorem find_map_of_key_stable {α : Type} (f : α → α) (p : α → Bool)
    (hp : ∀ x, p (f x) = p x) (l : List α) :
    (l.map f).find? p = (l.find? p).map f := by
  induction l with
  | nil => rfl
  | cons a t ih =>
    by_cases h : p a = true
    · simp [List.find?, hp a, h]
    · simp only [Bool.not_eq_true] at h
      simp [List.find?, hp a, h, ih]

/-- The sequential discount policy collapses to the closed product
formula. -/
theorem applyPct_applyPct (x : ℚ) (l c : Int) :
    applyPct (applyPct x l) c = x * (1 - (l : ℚ) / 100) * (1 - (c : ℚ) / 100) := by
  unfold applyPct
  ring

/-- Claim C1: for every valid cart (its resolution against the catalog
succeeds), create_order yields an order whose final_cost equals
original_cost times (1 minus loyalty_pct over 100) times (1 minus
coupon_pct over 100) — loyalty first, then the coupon on the remainder —
rounded to the currency precision, with both percentages snapshotted on
the stored row. -/
theorem C1_create_order_discount (s : Store) (cart : List CartLine)
    (userId : Nat) (loyaltyPct couponPct : Int) (orig : ℚ)
    (h : resolveCart s cart = some orig) :
    ∃ o s2, create_order s cart userId loyaltyPct couponPct = .ok (o, s2) ∧
      o.original_cost = orig ∧
      o.loyalty_pct = loyaltyPct ∧
      o.coupon_pct = couponPct ∧
      o.final_cost =
        round2 (orig * (1 - (loyaltyPct : ℚ) / 100) * (1 - (couponPct : ℚ) / 100)) ∧
      o ∈ s2.orders := by
  unfold create_order
  rw [h]
  refine ⟨_, _, rfl, rfl, rfl, rfl, ?_, ?_⟩
  · show round2 (applyPct (applyPct orig loyaltyPct) couponPct) = _
    rw [applyPct_applyPct]
  · simp

/-- Witness for C1 at the end-to-end scenario of the spec: zero prior
loyalty, a 200-cost cart, a ten percent coupon. -/
theorem C1_create_order_discount_witness :
    resolveCart demoStore [{ dish_code := "d1", extra_ids := [] }] = some 200 ∧
    (∃ o s2,
      create_order demoStore [{ dish_code := "d1", extra_ids := [] }] 7 0 10 = .ok (o, s2) ∧
      o.original_cost = 200 ∧
      o.loyalty_pct = 0 ∧
      o.coupon_pct = 10 ∧
      o.final_cost =
        round2 (200 * (1 - ((0 : ℤ) : ℚ) / 100) * (1 - ((10 : ℤ) : ℚ) / 100)) ∧
      o ∈ s2.orders) :=
  ⟨by norm_num [resolveCart, linePrice, demoStore, demoDish],
   C1_create_order_discount demoStore _ 7 0 10 200
     (by norm_num [resolveCart, linePrice, demoStore, demoDish])⟩

/-- Completion only touches completed_at and completed_by, so the row keeps
its id: the keyed update preserves the lookup key. -/
theorem completeFields_key_stable (orderId staffId : Nat) (now : Int) (x : Order) :
    ((if x.id == orderId then completeFields x staffId now else x).id == orderId) =
      (x.id == orderId) := by
  by_cases hx : (x.id == orderId) = true
  · simp [hx, completeFields]
  · simp only [Bool.not_eq_true] at hx
    simp [hx]

/-- Claim C2: complete_order fails with NotFound when no order with the id
exists, with Conflict when the order is already completed, and otherwise
sets completed_at and completed_by; a second call on the just-completed
order then fails with Conflict, so two successive calls on an uncompleted
order yield success then Conflict. -/
theorem C2_complete_order_transitions (s : Store) (orderId staffId : Nat) (now : Int) :
    (s.orders.find? (fun o => o.id == orderId) = none →
      complete_order s orderId staffId now = .error .notFound) ∧
    (∀ o, s.orders.find? (fun o => o.id == orderId) = some o →
      o.completed_at.isSome = true →
      complete_order s orderId staffId now = .error .conflict) ∧
    (∀ o, s.orders.find? (fun o => o.id == orderId) = some o →
      o.completed_at = none →
      ∃ s2, complete_order s orderId staffId now = .ok s2 ∧
        s2.orders.find? (fun x => x.id == orderId) =
          some (completeFields o staffId now) ∧
        ∀ staffId2 now2, complete_order s2 orderId staffId2 now2 = .error .conflict) := by
  refine ⟨?_, ?_, ?_⟩
  · intro h
    unfold complete_order
    rw [h]
  · intro o ho hsome
    unfold complete_order
    rw [ho]
    simp [hsome]
  · intro o ho hnone
    have hp := completeFields_key_stable orderId staffId now
    have hmap := find_map_of_key_stable
      (fun x => if x.id == orderId then completeFields x staffId now else x)
      (fun o => o.id == orderId) hp s.orders
    have hpo : (o.id == orderId) = true := by simpa using List.find?_some ho
    have hfind2 :
        (s.orders.map
            (fun x => if x.id == orderId then completeFields x staffId now else x)).find?
          (fun o => o.id == orderId) = some (completeFields o staffId now) := by
      rw [hmap, ho]
      show some (if (o.id == orderId) = true then completeFields o staffId now else o) =
        some (completeFields o staffId now)
      rw [if_pos hpo]
    refine ⟨{ s with
        orders := s.orders.map
          (fun x => if x.id == orderId then completeFields x staffId now else x) },
      ?_, ?_, ?_⟩
    · unfold complete_order
      rw [ho]
      simp [hnone]
    · exact hfind2
    · intro staffId2 now2
      unfold complete_order
      rw [show ({ s with
          orders := s.orders.map
            (fun x => if x.id == orderId then completeFields x staffId now else x) } :
            Store).orders.find? (fun o => o.id == orderId) =
          some (completeFields o staffId now) from hfind2]
      simp [completeFields]

/-- Witness for C2: completing the uncompleted fixture order succeeds and
a second completion attempt fails with Conflict. -/
theorem C2_complete_order_transitions_witness :
    demoStore.orders.find? (fun o => o.id == 1) = some demoOrder ∧
    demoOrder.completed_at = none ∧
    (∃ s2, complete_order demoStore 1 9 50 = .ok s2 ∧
      s2.orders.find? (fun x => x.id == 1) = some (completeFields demoOrder 9 50) ∧
      ∀ staffId2 now2, complete_order s2 1 staffId2 now2 = .error .conflict) :=
  ⟨by decide, by decide,
   (C2_complete_order_transitions demoStore 1 9 50).2.2 demoOrder (by decide) (by decide)⟩

/-- Consumption only touches used_at and user_id, so the row keeps its
code: the keyed update preserves the lookup key. -/
theorem consumeCoupon_key_stable (code : String) (userId : Nat) (now : Int)
    (x : Coupon) :
    ((if x.code == code then consumeCoupon x userId now else x).code == code) =
      (x.code == code) := by
  by_cases hx : (x.code == code) = true
  · simp [hx, consumeCoupon]
  · simp only [Bool.not_eq_true] at hx
    simp [hx]

/-- Claim C3: coupon validation fails with NotFound when no coupon with the
code exists, with Conflict when the coupon is already used, deactivated or
expired, and on success returns the discount percentage while, in the same
atomic state transition, marking the coupon consumed and binding it to the
requesting user — after which every further redemption attempt fails with
Conflict. -/
theorem C3_check_coupon_redemption (s : Store) (code : String) (userId : Nat)
    (today now : Int) :
    (s.coupons.find? (fun c => c.code == code) = none →
      check_coupon s code userId today now = .error .notFound) ∧
    (∀ c, s.coupons.find? (fun c => c.code == code) = some c →
      (c.used_at.isSome = true ∨ c.is_active = false ∨ couponExpired c today = true) →
      check_coupon s code userId today now = .error .conflict) ∧
    (∀ c, s.coupons.find? (fun c => c.code == code) = some c →
      c.used_at = none → c.is_active = true → couponExpired c today = false →
      ∃ s2, check_coupon s code userId today now = .ok (c.discount_value, s2) ∧
        s2.coupons.find? (fun x => x.code == code) =
          some (consumeCoupon c userId now) ∧
        (consumeCoupon c userId now).used_at = some now ∧
        (consumeCoupon c userId now).user_id = some userId ∧
        ∀ userId2 today2 now2,
          check_coupon s2 code userId2 today2 now2 = .error .conflict) := by
  refine ⟨?_, ?_, ?_⟩
  · intro h
    unfold check_coupon
    rw [h]
  · intro c hc hdisj
    unfold check_coupon
    rw [hc]
    rcases hdisj with h | h | h
    · simp [h]
    · by_cases hu : c.used_at.isSome = true <;> simp [hu, h]
    · by_cases hu : c.used_at.isSome = true
      · simp [hu]
      · by_cases ha : c.is_active = true <;> simp_all
  · intro c hc hu ha he
    have hp := consumeCoupon_key_stable code userId now
    have hmap := find_map_of_key_stable
      (fun x => if x.code == code then consumeCoupon x userId now else x)
      (fun c => c.code == code) hp s.coupons
    have hpc : (c.code == code) = true := by simpa using List.find?_some hc
    have hfind2 :
        (s.coupons.map
            (fun x => if x.code == code then consumeCoupon x userId now else x)).find?
          (fun c => c.code == code) = some (consumeCoupon c userId now) := by
      rw [hmap, hc]
      show some (if (c.code == code) = true then consumeCoupon c userId now else c) =
        some (consumeCoupon c userId now)
      rw [if_pos hpc]
    refine ⟨{ s with
        coupons := s.coupons.map
          (fun x => if x.code == code then consumeCoupon x userId now else x) },
      ?_, hfind2, rfl, rfl, ?_⟩
    · unfold check_coupon
      rw [hc]
      simp [hu, ha, he]
    · intro userId2 today2 now2
      unfold check_coupon
      rw [show ({ s with
          coupons := s.coupons.map
            (fun x => if x.code == code then consumeCoupon x userId now else x) } :
            Store).coupons.find? (fun c => c.code == code) =
          some (consumeCoupon c userId now) from hfind2]
      simp [consumeCoupon]

/-- Witness for C3: redeeming the unused active fixture coupon succeeds,
returns its ten percent discount, and a second redemption attempt fails
with Conflict. -/
theorem C3_check_coupon_redemption_witness :
    demoStore.coupons.find? (fun c => c.code == "SAVE10") = some demoCoupon ∧
    demoCoupon.used_at = none ∧
    demoCoupon.is_active = true ∧
    couponExpired demoCoupon 40 = false ∧
    (∃ s2, check_coupon demoStore "SAVE10" 7 40 42 = .ok (demoCoupon.discount_value, s2) ∧
      s2.coupons.find? (fun x => x.code == "SAVE10") = some (consumeCoupon demoCoupon 7 42) ∧
      (consumeCoupon demoCoupon 7 42).used_at = some 42 ∧
      (consumeCoupon demoCoupon 7 42).user_id = some 7 ∧
      ∀ userId2 today2 now2,
        check_coupon s2 "SAVE10" userId2 today2 now2 = .error .conflict) :=
  ⟨by decide, by decide, by decide, by decide,
   (C3_check_coupon_redemption demoStore "SAVE10" 7 40 42).2.2 demoCoupon
     (by decide) (by decide) (by decide) (by decide)⟩

/-- Claim C4: in both request lifecycles, a request that fails with any
error leaves the durable store exactly as it was: the Flask teardown rolls
back whenever the handler flagged a failure or the request raised, and the
FastAPI route pattern rolls back before re-raising, so no write from a
failed request survives. -/
theorem C4_failure_rolls_back (s : Store) (handler : HandlerRun)
    (exc commitFails : Bool) :
    (∀ e, (flask_mutation_request s handler exc commitFails).2 = some e →
      (flask_mutation_request s handler exc commitFails).1 = s) ∧
    (exc = true → (flask_mutation_request s handler exc commitFails).1 = s) ∧
    (∀ e, (fastapi_mutation_request s handler).2 = some e →
      (fastapi_mutation_request s handler).1 = s) := by
  refine ⟨?_, ?_, ?_⟩
  · intro e he
    have h2 : (handler s).2 = some e := he
    simp [flask_mutation_request, remove_session, h2]
  · intro hexc
    simp [flask_mutation_request, remove_session, hexc]
  · intro e he
    rcases h : handler s with ⟨s2, e2⟩
    cases e2 with
    | none => simp [fastapi_mutation_request, h] at he
    | some e3 => simp [fastapi_mutation_request, h]

/-- Witness for C4: the failing handler writes a like row and reports
Conflict; both lifecycles report the error and leave the fixture store
untouched. -/
theorem C4_failure_rolls_back_witness :
    (flask_mutation_request demoStore demoFailingHandler false false).2 =
      some .conflict ∧
    (flask_mutation_request demoStore demoFailingHandler false false).1 = demoStore ∧
    (fastapi_mutation_request demoStore demoFailingHandler).2 = some .conflict ∧
    (fastapi_mutation_request demoStore demoFailingHandler).1 = demoStore :=
  ⟨rfl,
   (C4_failure_rolls_back demoStore demoFailingHandler false false).1 .conflict rfl,
   rfl,
   (C4_failure_rolls_back demoStore demoFailingHandler false false).2.2 .conflict rfl⟩

/-- Claim C6: liking a dish whose code does not exist fails with NotFound;
the first like of a (user, dish) pair succeeds; every subsequent like of
the same pair fails with Conflict; and a successful like preserves
distinctness of the like rows, so the store never holds two rows with the
same (user, dish) pair. -/
theorem C6_like_uniqueness (s : Store) (userId : Nat) (code : String) :
    (s.dishes code = none → add_dish_like s userId code = .error .notFound) ∧
    (∀ d, s.dishes code = some d → (userId, code) ∈ s.likes →
      add_dish_like s userId code = .error .conflict) ∧
    (∀ d, s.dishes code = some d → (userId, code) ∉ s.likes →
      ∃ s2, add_dish_like s userId code = .ok s2 ∧
        s2.likes = (userId, code) :: s.likes ∧
        add_dish_like s2 userId code = .error .conflict ∧
        (s.likes.Nodup → s2.likes.Nodup)) := by
  refine ⟨?_, ?_, ?_⟩
  · intro h
    unfold add_dish_like
    rw [h]
  · intro d hd hmem
    unfold add_dish_like
    rw [hd]
    simp [hmem]
  · intro d hd hnot
    refine ⟨{ s with likes := (userId, code) :: s.likes }, ?_, rfl, ?_, ?_⟩
    · unfold add_dish_like
      rw [hd]
      simp [hnot]
    · unfold add_dish_like
      rw [show ({ s with likes := (userId, code) :: s.likes } : Store).dishes code =
          some d from hd]
      simp
    · intro hnd
      simpa [List.nodup_cons] using ⟨hnot, hnd⟩

/-- Witness for C6: the first like of the fixture dish succeeds, the second
fails with Conflict, and row distinctness is preserved. -/
theorem C6_like_uniqueness_witness :
    demoStore.dishes "d1" = some demoDish ∧
    ((7, "d1") ∉ demoStore.likes) ∧
    (∃ s2, add_dish_like demoStore 7 "d1" = .ok s2 ∧
      s2.likes = (7, "d1") :: demoStore.likes ∧
      add_dish_like s2 7 "d1" = .error .conflict ∧
      (demoStore.likes.Nodup → s2.likes.Nodup)) :=
  ⟨by decide, by decide,
   (C6_like_uniqueness demoStore 7 "d1").2.2 demoDish (by decide) (by decide)⟩

/-- Counterexample to C5: with the only_unread query parameter absent, the
two notification routes call the shared service with different arguments —
the FastAPI route defaults to false and returns the already-read fixture
notification, the Flask route defaults to true and returns nothing — so
the two front ends are not observationally equivalent on identical
requests. -/
theorem C5_notifications_default_counterexample :
    fastapi_get_notifications_route demoStore none ≠
      flask_get_notifications_route demoStore none ∧
    fastapi_get_notifications_route demoStore none = [demoNotification] ∧
    flask_get_notifications_route demoStore none = [] := by
  refine ⟨?_, ?_, ?_⟩ <;> decide

/-- Claim C5 as amended: the two route layers invoke the same service calls
with the same arguments and map domain errors to the same status codes on
every request whose query parameters are explicit, and they agree on the
orders-list default; the single divergence is the default of the
notifications only_unread parameter, which is false in the FastAPI route
and true in the Flask route. -/
theorem C5_front_end_equivalence_amended :
    (∀ s b, fastapi_get_notifications_route s (some b) =
      flask_get_notifications_route s (some b)) ∧
    (∀ s cred q, fastapi_get_orders_endpoint s cred q =
      flask_get_orders_endpoint s cred q) ∧
    (∀ s cred, fastapi_get_orders_count_endpoint s cred =
      flask_get_orders_count_endpoint s cred) ∧
    (∀ s cred orderId now, fastapi_complete_order_endpoint s cred orderId now =
      flask_complete_order_endpoint s cred orderId now) ∧
    (∀ s d1 d2, fastapi_statistics_endpoint s d1 d2 =
      flask_statistics_endpoint s d1 d2) ∧
    (∀ e, fastapi_complete_order_error_status e =
      flask_complete_order_error_status e) ∧
    (∀ e, fastapi_check_coupon_error_status e = flask_check_coupon_error_status e) ∧
    fastapi_only_unread_default ≠ flask_only_unread_default := by
  refine ⟨fun s b => rfl, ?_, fun s cred => rfl, fun s cred orderId now => rfl,
    fun s d1 d2 => rfl, fun e => rfl, fun e => rfl, by decide⟩
  intro s cred q
  cases q with
  | none =>
    have hdef : flask_only_uncompleted_default = fastapi_only_uncompleted_default := by
      decide
    simp [fastapi_get_orders_endpoint, flask_get_orders_endpoint, hdef]
  | some b => rfl

/-- Claim C7: in both route layers the statistics request fails with a
validation error exactly when start_date is strictly after end_date, is
accepted exactly when start_date is not after end_date, and in particular
a request with equal dates is accepted and processed. -/
theorem C7_statistics_date_validation (s : Store) (d1 d2 : Int) :
    ((fastapi_statistics_endpoint s d1 d2 = .error .validationError) ↔ d2 < d1) ∧
    ((∃ r, fastapi_statistics_endpoint s d1 d2 = .ok r) ↔ d1 ≤ d2) ∧
    ((flask_statistics_endpoint s d1 d2 = .error .validationError) ↔ d2 < d1) ∧
    ((∃ r, flask_statistics_endpoint s d1 d2 = .ok r) ↔ d1 ≤ d2) ∧
    (∃ r, fastapi_statistics_endpoint s d1 d1 = .ok r) ∧
    (∃ r, flask_statistics_endpoint s d1 d1 = .ok r) := by
  have hirr : ¬ d1 > d1 := lt_irrefl d1
  by_cases h : d1 > d2
  · have hnle : ¬ d1 ≤ d2 := not_le.mpr h
    refine ⟨?_, ?_, ?_, ?_, ?_, ?_⟩ <;>
      simp [fastapi_statistics_endpoint, flask_statistics_endpoint, h, hirr, hnle,
        gt_iff_lt]
  · have hle : d1 ≤ d2 := not_lt.mp h
    refine ⟨?_, ?_, ?_, ?_, ?_, ?_⟩ <;>
      simp [fastapi_statistics_endpoint, flask_statistics_endpoint, h, hirr, hle,
        gt_iff_lt]

/-- Claim C9: the orders-count route of each front end declares no role
dependency, so its result is independent of the caller credential, while
the other admin order operations — the orders list and order completion —
reject every caller without the staff role. -/
theorem C9_orders_count_role_independence (s : Store) (c1 c2 : Credential) :
    fastapi_get_orders_count_endpoint s c1 = fastapi_get_orders_count_endpoint s c2 ∧
    flask_get_orders_count_endpoint s c1 = flask_get_orders_count_endpoint s c2 ∧
    (has_required_role .staff c1 = false →
      (∀ q, fastapi_get_orders_endpoint s c1 q = .error .forbidden) ∧
      (∀ q, flask_get_orders_endpoint s c1 q = .error .forbidden) ∧
      (∀ orderId now, fastapi_complete_order_endpoint s c1 orderId now =
        .error .forbidden) ∧
      (∀ orderId now, flask_complete_order_endpoint s c1 orderId now =
        .error .forbidden)) := by
  refine ⟨rfl, rfl, ?_⟩
  intro hrole
  refine ⟨fun q => ?_, fun q => ?_, fun orderId now => ?_, fun orderId now => ?_⟩ <;>
    simp [fastapi_get_orders_endpoint, flask_get_orders_endpoint,
      fastapi_complete_order_endpoint, flask_complete_order_endpoint, hrole]

/-- Witness for C9: a client credential and a staff credential observe the
same count, and the client credential is rejected by the gated order
operations. -/
theorem C9_orders_count_role_independence_witness :
    fastapi_get_orders_count_endpoint demoStore { subject := 7, role := some .client } =
      fastapi_get_orders_count_endpoint demoStore { subject := 8, role := some .staff } ∧
    flask_get_orders_count_endpoint demoStore { subject := 7, role := some .client } =
      flask_get_orders_count_endpoint demoStore { subject := 8, role := some .staff } ∧
    has_required_role .staff { subject := 7, role := some .client } = false ∧
    ((∀ q, fastapi_get_orders_endpoint demoStore { subject := 7, role := some .client } q =
        .error .forbidden) ∧
      (∀ q, flask_get_orders_endpoint demoStore { subject := 7, role := some .client } q =
        .error .forbidden) ∧
      (∀ orderId now,
        fastapi_complete_order_endpoint demoStore { subject := 7, role := some .client }
          orderId now = .error .forbidden) ∧
      (∀ orderId now,
        flask_complete_order_endpoint demoStore { subject := 7, role := some .client }
          orderId now = .error .forbidden)) :=
  ⟨(C9_orders_count_role_independence demoStore { subject := 7, role := some .client }
      { subject := 8, role := some .staff }).1,
   (C9_orders_count_role_independence demoStore { subject := 7, role := some .client }
      { subject := 8, role := some .staff }).2.1,
   by decide,
   (C9_orders_count_role_independence demoStore { subject := 7, role := some .client }
      { subject := 8, role := some .staff }).2.2 (by decide)⟩

/-- Claim C10: when Redis is unreachable at startup the client constructor
yields none, the FastAPI limiter, the Flask limiter and the FastAPI cache
all fall back to in-memory backends, and request handling is identical
under either backend choice, so every endpoint remains callable with
unchanged success semantics. -/
theorem C10_redis_degradation (url : String) :
    get_sync_redis_client .unreachable url = none ∧
    create_limiter .unreachable url = { backend := .inMemory } ∧
    flask_limiter .unreachable url = { backend := .inMemory } ∧
    lifespan_cache_backend .unreachable = .inMemory ∧
    (∀ (h1 h2 : RedisHealth) (handler : HandlerRun) (s : Store),
      handle_request (create_limiter h1 url) (lifespan_cache_backend h1) handler s =
        handle_request (create_limiter h2 url) (lifespan_cache_backend h2) handler s) :=
  ⟨rfl, rfl, rfl, rfl, fun _ _ _ _ => rfl⟩

/-- Claim C8: for every valid date range with start_date not after
end_date, the sales summary has exactly (end minus start).days plus one
entries — the five parallel result lists all have that length — with one
entry per calendar date of the inclusive range, and a date with no
aggregate row present and zero-filled. -/
theorem C8_sales_summary_shape (rows : List SalesRow) (d1 d2 : Int)
    (h : d1 ≤ d2) :
    (get_sales_summary rows d1 d2).dates.length = (d2 - d1).toNat + 1 ∧
    (get_sales_summary rows d1 d2).total_sales.length = (d2 - d1).toNat + 1 ∧
    (get_sales_summary rows d1 d2).avg_check_sizes.length = (d2 - d1).toNat + 1 ∧
    (get_sales_summary rows d1 d2).orders.length = (d2 - d1).toNat + 1 ∧
    (get_sales_summary rows d1 d2).returning_customers.length = (d2 - d1).toNat + 1 ∧
    (∀ i, i < (d2 - d1).toNat + 1 →
      (get_sales_summary rows d1 d2).dates[i]? = some (toString (d1 + (i : Int)))) ∧
    (∀ i, i < (d2 - d1).toNat + 1 →
      rows.find? (fun r => r.date == d1 + (i : Int)) = none →
      (get_sales_summary rows d1 d2).total_sales[i]? = some 0 ∧
      (get_sales_summary rows d1 d2).avg_check_sizes[i]? = some 0 ∧
      (get_sales_summary rows d1 d2).orders[i]? = some 0 ∧
      (get_sales_summary rows d1 d2).returning_customers[i]? = some 0) := by
  refine ⟨?_, ?_, ?_, ?_, ?_, ?_, ?_⟩
  · simp only [get_sales_summary, salesRange, List.length_map, List.length_range]
  · simp only [get_sales_summary, salesRange, List.length_map, List.length_range]
  · simp only [get_sales_summary, salesRange, List.length_map, List.length_range]
  · simp only [get_sales_summary, salesRange, List.length_map, List.length_range]
  · simp only [get_sales_summary, salesRange, List.length_map, List.length_range]
  · intro i hi
    simp only [get_sales_summary, salesRange, List.getElem?_map, List.getElem?_range,
      hi, if_true, Option.map_some']
  · intro i hi hfind
    refine ⟨?_, ?_, ?_, ?_⟩ <;>
      · simp only [get_sales_summary, salesRange, List.getElem?_map,
          List.getElem?_range, hi, if_true, Option.map_some']
        simp [hfind]

/-- Witness for C8: range of three days with a single aggregate row on the
middle day; the lists have length three and the last day is zero-filled. -/
theorem C8_sales_summary_shape_witness :
    (0 : ℤ) ≤ 2 ∧
    ((get_sales_summary [demoSalesRow] 0 2).dates.length = ((2 : ℤ) - 0).toNat + 1 ∧
     (get_sales_summary [demoSalesRow] 0 2).total_sales.length =
       ((2 : ℤ) - 0).toNat + 1 ∧
     (get_sales_summary [demoSalesRow] 0 2).avg_check_sizes.length =
       ((2 : ℤ) - 0).toNat + 1 ∧
     (get_sales_summary [demoSalesRow] 0 2).orders.length = ((2 : ℤ) - 0).toNat + 1 ∧
     (get_sales_summary [demoSalesRow] 0 2).returning_customers.length =
       ((2 : ℤ) - 0).toNat + 1 ∧
     (∀ i, i < ((2 : ℤ) - 0).toNat + 1 →
       (get_sales_summary [demoSalesRow] 0 2).dates[i]? =
         some (toString ((0 : ℤ) + (i : Int)))) ∧
     (∀ i, i < ((2 : ℤ) - 0).toNat + 1 →
       [demoSalesRow].find? (fun r => r.date == (0 : ℤ) + (i : Int)) = none →
       (get_sales_summary [demoSalesRow] 0 2).total_sales[i]? = some 0 ∧
       (get_sales_summary [demoSalesRow] 0 2).avg_check_sizes[i]? = some 0 ∧
       (get_sales_summary [demoSalesRow] 0 2).orders[i]? = some 0 ∧
       (get_sales_summary [demoSalesRow] 0 2).returning_customers[i]? = some 0)) :=
  ⟨by decide, C8_sales_summary_shape [demoSalesRow] 0 2 (by decide)⟩

end Cafe
